import Mathlib

/-!
Verification of the TLS-verified fetch pipeline of `httpBridge` (file
`harness/command_handler/fetch.py`).

The Python module is shallowly embedded: pure computations become Lean
functions, Python exceptions become `Except PyError`, Python `dict` values
that flow into the result envelope become association lists (`PyDict`), and
the external collaborators (the TLS socket, the HTTP response, the stdlib
`json` module and the spawned `security` / `openssl` processes) are supplied
as explicit oracle records (`FetchEnv`, `TrustEnv`).  Every definition is
translated from the source; whenever a detail of the Python runtime is
abstracted, the surrounding comment says so.
-/

/-- Python values, as far as the fetch pipeline stores them in result
dictionaries.  `PyValue.none` is Python's `None`. -/
inductive PyValue where
  | none : PyValue
  | bool : Bool → PyValue
  | int : Int → PyValue
  | str : String → PyValue
  | list : List PyValue → PyValue
  | dict : List (String × PyValue) → PyValue

/-- A Python `dict` with string keys, in insertion order. -/
abbrev PyDict := List (String × PyValue)

/-- Python `d[k]` lookup (first matching key; keys are unique in all dicts
the source builds). -/
def PyDict.get? : PyDict → String → Option PyValue
  | [], _ => Option.none
  | (k0, v0) :: rest, k => if k0 = k then Option.some v0 else PyDict.get? rest k

/-- Python `d[k] = v`: replace the value in place when the key exists,
otherwise append the new pair (insertion order). -/
def PyDict.set : PyDict → String → PyValue → PyDict
  | [], k, v => [(k, v)]
  | (k0, v0) :: rest, k, v =>
    if k0 = k then (k0, v) :: rest else (k0, v0) :: PyDict.set rest k v

/-- Python `x is None` for the values the pipeline tests. -/
def PyValue.isNone : PyValue → Bool
  | .none => true
  | _ => false

/-- A raised Python exception (its class name and message). -/
structure PyError where
  kind : String
  msg : String

/-- The result of `subprocess.run(...)` when the process could be spawned:
exit status, captured stdout and stderr. -/
structure SubprocessResult where
  returncode : Int
  stdout : String
  stderr : String

/-- `json.JSONDecodeError`: message plus the parser's position. -/
structure JSONDecodeError where
  msg : String
  lineno : Int
  colno : Int

/-! ### List-of-characters string helpers

The scanning loops of the source (`urllib.parse` hostname extraction, the
`BEGIN CERTIFICATE` line scans, base64) are implemented over `List Char` by
structural recursion so that closed instances evaluate inside the kernel. -/

/-- Split a character list at the first character satisfying `p`; the
delimiter stays at the head of the second component. -/
def takeUntil (p : Char → Bool) : List Char → (List Char × List Char)
  | [] => ([], [])
  | c :: cs =>
    if p c then ([], c :: cs)
    else
      let (a, b) := takeUntil p cs
      (c :: a, b)

/-- `List.isPrefixOf` on characters, as a Bool (Python `str.startswith`). -/
def listStartsWith : List Char → List Char → Bool
  | _, [] => true
  | [], _ :: _ => false
  | c :: cs, d :: ds => c = d && listStartsWith cs ds

/-- Python `pat in s` substring test. -/
def containsSub : List Char → List Char → Bool
  | [], pat => pat.isEmpty
  | c :: cs, pat => listStartsWith (c :: cs) pat || containsSub cs pat

/-- Python `str.splitlines(True)`: lines with their terminators kept.
Abstraction: only `\n` is treated as a line terminator (the source only ever
scans output that uses it). -/
def splitlinesKeepends : List Char → List Char → List (List Char)
  | [], acc => if acc.isEmpty then [] else [acc.reverse]
  | c :: cs, acc =>
    if c = '\n' then (acc.reverse ++ [c]) :: splitlinesKeepends cs []
    else splitlinesKeepends cs (c :: acc)

/-- Decimal digits to a natural number. -/
def digitsToNat (cs : List Char) : Nat :=
  cs.foldl (fun acc c => acc * 10 + (c.toNat - '0'.toNat)) 0

/-- ASCII lowering, as `str.lower` does on the scheme and host. -/
def listToLower (cs : List Char) : List Char := cs.map Char.toLower

/-! ### base64 (as `base64.b64encode(...).decode('utf-8')`) -/

def base64Chars : List Char :=
  "ABCDEFGHIJKLMNOPQRSTUVWXYZabcdefghijklmnopqrstuvwxyz0123456789+/".toList

def b64char (n : Nat) : Char := base64Chars.getD n '?'

/-- Standard base64 of a byte sequence (each `Nat` is reduced mod 256, the
byte range `bytes` guarantees in Python). -/
def base64encode : List Nat → String
  | [] => ""
  | [x1] =>
    let b1 := x1 % 256
    String.mk [b64char (b1 / 4), b64char (b1 % 4 * 16), '=', '=']
  | [x1, x2] =>
    let b1 := x1 % 256
    let b2 := x2 % 256
    String.mk [b64char (b1 / 4), b64char (b1 % 4 * 16 + b2 / 16),
      b64char (b2 % 16 * 4), '=']
  | x1 :: x2 :: x3 :: rest =>
    let b1 := x1 % 256
    let b2 := x2 % 256
    let b3 := x3 % 256
    String.mk [b64char (b1 / 4), b64char (b1 % 4 * 16 + b2 / 16),
      b64char (b2 % 16 * 4 + b3 / 64), b64char (b3 % 64)] ++ base64encode rest

/-! ### `urllib.parse.urlparse`, to the extent the source consumes it

The source reads `url.hostname`, `url.port` and `url.netloc`.  The embedding
follows CPython `urlsplit`: an optional scheme before the first `:`
(non-empty, leading letter, scheme characters only), a netloc only after
`//`, hostname as the lowercased part of the netloc after the last `@` and
before the first `:`, port as the digits after that `:`.  Abstractions:
IPv6 bracket syntax is not modelled, and a non-numeric port (which makes
`url.port` raise in Python) is mapped to `none`; neither case is exercised
by any claim. -/

structure Url where
  scheme : String
  netloc : String
  rest : String

def isSchemeChar (c : Char) : Bool :=
  c.isAlpha || c.isDigit || c = '+' || c = '-' || c = '.'

def splitScheme (cs : List Char) : List Char × List Char :=
  match takeUntil (fun c => c = ':') cs with
  | (pre, ':' :: rest) =>
    match pre with
    | [] => ([], cs)
    | c0 :: _ =>
      if c0.isAlpha && pre.all isSchemeChar then (listToLower pre, rest)
      else ([], cs)
  | _ => ([], cs)

def splitNetloc (cs : List Char) : List Char × List Char :=
  match cs with
  | '/' :: '/' :: rest => takeUntil (fun c => c = '/' || c = '?' || c = '#') rest
  | _ => ([], cs)

def urlparse (resource : String) : Url :=
  let (scheme, afterScheme) := splitScheme resource.toList
  let (netloc, rest) := splitNetloc afterScheme
  { scheme := String.mk scheme, netloc := String.mk netloc
    rest := String.mk rest }

/-- The part of the netloc after the last `@` (CPython
`netloc.rpartition('@')`). -/
def afterLastAt : List Char → List Char
  | [] => []
  | c :: rest =>
    if c = '@' && !rest.contains '@' then rest
    else if rest.contains '@' then afterLastAt rest
    else c :: rest

def urlHostname (url : Url) : Option String :=
  let hostinfo := afterLastAt url.netloc.toList
  let (host, _) := takeUntil (fun c => c = ':') hostinfo
  if host.isEmpty then Option.none else Option.some (String.mk (listToLower host))

def urlPort (url : Url) : Option Nat :=
  let hostinfo := afterLastAt url.netloc.toList
  match takeUntil (fun c => c = ':') hostinfo with
  | (_, ':' :: portChars) =>
    if !portChars.isEmpty && portChars.all Char.isDigit then
      Option.some (digitsToNat portChars)
    else Option.none
  | _ => Option.none

/-- The string interpolated for `f'{url}'` in the no-host error dictionary.
Abstraction: Python formats the full `ParseResult` named tuple; the embedding
renders the same information (the string is only stored in the error
envelope, never inspected). -/
def urlRepr (url : Url) : String :=
  s!"ParseResult(scheme={url.scheme}, netloc={url.netloc}, rest={url.rest})"

/-! ### Caller input (`parameters` and `parameters['options']`)

The Python side receives these as dicts.  The embedding keeps exactly the
keys the source reads (`resource`, `options`, and inside options `method`,
`body`, `bodyObject`, `headers`); an absent key is `none`.  Keys the source
never touches are abstracted away. -/

structure Options where
  method : Option String
  body : Option String
  bodyObject : Option PyValue
  headers : Option (List (String × String))

/-- `options = {}` after the `except KeyError` in `_request`. -/
def Options.empty : Options :=
  { method := Option.none, body := Option.none
    bodyObject := Option.none, headers := Option.none }

structure Parameters where
  resource : Option String
  options : Option Options

/-- `tuple(parameters.keys())`, restricted to the modelled keys (the caller
may pass others; they are only echoed in a diagnostic field that no claim
inspects). -/
def Parameters.keys (p : Parameters) : List String :=
  (if p.resource.isSome then ["resource"] else []) ++
    (if p.options.isSome then ["options"] else [])

/-! ### External collaborators of one fetch call -/

/-- The request `_request` assembles on the connection: the
`putrequest` line, whether the automatic `Content-Type: application/json`
header was written, the caller headers written with `putheader`, and the
body bytes handed to `endheaders` (decoded). -/
structure Request where
  method : String
  target : String
  contentTypeSet : Bool
  headers : List (String × String)
  body : Option String

/-- The HTTP response the server returns for a request: `response.status`,
`response.reason`, `response.getheaders()` and `response.read()` decoded as
utf-8. -/
structure ResponseData where
  status : Int
  reason : String
  headers : List (String × String)
  body : String

/-- A successfully handshaked `HTTPSConnection`: the peer certificate the
socket presents (binary DER bytes plus the parsed dictionary form, which is
only logged) and the server's behaviour for the request sent on it
(`Except.error` is an exception raised inside the `putrequest` /
`getresponse` / `read` interaction). -/
structure ConnOk where
  peerCertBinary : List Nat
  peerCertDict : List (String × String)
  respond : Request → Except PyError ResponseData

/-- Outcome of `HTTPSConnection(...)` construction followed by
`.connect()`: the two phases fail with distinct messages in `_connect`. -/
inductive ConnectOutcome where
  | ctorError : String → ConnectOutcome
  | handshakeError : String → ConnectOutcome
  | ok : ConnOk → ConnectOutcome

/-- Everything outside the Python code that a single `fetch` call can
observe: the TLS connection, the stdlib `json` module (`loads` / `dumps`)
and the two `openssl` subprocesses of the thumbprint cross-check
(`Except.error` models `subprocess.run` itself raising). -/
structure FetchEnv where
  connectOutcome : ConnectOutcome
  jsonLoads : String → Except JSONDecodeError PyValue
  jsonDumps : PyValue → String
  s_clientRun : Except PyError SubprocessResult
  x509Run : String → Except PyError SubprocessResult

/-! ### The result envelope -/

/-- The dictionary `fetch` returns.  A `none` field means the key is absent
from the dictionary (the success shape has no `fetchError`; the failure
shape has neither `fetched` nor `fetchedDetails`). -/
structure FetchResult where
  peerCertificateDER : Option String
  peerCertificateLength : Option Nat
  fetchedRaw : Option String
  fetchError : Option PyDict
  fetched : Option PyValue
  fetchedDetails : Option PyDict

/-- The nested `return_` closure of `fetch`: build the envelope from the
captured `peerCertEncoded` / `peerCertLength` / `fetchedRaw` variables, the
stage `status` (stored into the details dict when not `None`), the parsed
value and the details dict. -/
def return_ (peerCertEncoded : Option String) (peerCertLength : Option Nat)
    (fetchedRaw : Option String) (status : Option Int) (fetched : PyValue)
    (details : PyDict) : FetchResult :=
  let details' := match status with
    | Option.some s => PyDict.set details "status" (PyValue.int s)
    | Option.none => details
  if fetched.isNone then
    { peerCertificateDER := peerCertEncoded
      peerCertificateLength := peerCertLength
      fetchedRaw := fetchedRaw
      fetchError := Option.some details'
      fetched := Option.none
      fetchedDetails := Option.none }
  else
    { peerCertificateDER := peerCertEncoded
      peerCertificateLength := peerCertLength
      fetchedRaw := fetchedRaw
      fetchError := Option.none
      fetched := Option.some fetched
      fetchedDetails := Option.some details' }

/-! ### The pipeline stages -/

/-- `Fetcher._parse_resource`.  On success the source returns
`(url, 443 if url.port is None else url.port, None)`; the embedding also
carries the hostname string whose presence was just established (the source
re-reads `url.hostname` at the call sites).  On failure the source returns
`(None, None, errordict)` — `Except.error` carries the dict, and the
consequence of `url` being `None` is modelled at the use site in `fetch`. -/
def _parse_resource (parameters : Parameters) :
    Except PyDict (Url × String × Nat) :=
  match parameters.resource with
  | Option.none =>
    Except.error [("statusText", PyValue.str "No \"resource\" in parameters."),
      ("parameterKeys", PyValue.list (parameters.keys.map PyValue.str))]
  | Option.some resource =>
    let url := urlparse resource
    match urlHostname url with
    | Option.none =>
      Except.error [("statusText", PyValue.str "No host in parameters.resource"),
        ("resource", PyValue.str resource),
        ("url", PyValue.str (urlRepr url))]
    | Option.some host =>
      Except.ok (url, host,
        match urlPort url with
        | Option.none => 443
        | Option.some p => p)

/-- `Fetcher._connect`: construct the `HTTPSConnection`, then handshake;
each phase catches `Exception` and returns an error dict. -/
def _connect (host : String) (port : Nat) (env : FetchEnv) :
    Except PyDict ConnOk :=
  match env.connectOutcome with
  | ConnectOutcome.ctorError e =>
    Except.error [("statusText", PyValue.str s!"HTTPSConnection({host},{port},) {e}")]
  | ConnectOutcome.handshakeError e =>
    Except.error
      [("statusText", PyValue.str s!"HTTPSConnection({host},{port},).connect() {e}")]
  | ConnectOutcome.ok conn => Except.ok conn

/-- `Fetcher.get_peer_certificate`: read the certificate off the socket and
return `(base64(DER).decode('utf-8'), len(DER))`.  The parsed dictionary and
the SHA-1 thumbprint are only logged and do not reach the result. -/
def get_peer_certificate (conn : ConnOk) : String × Nat :=
  (base64encode conn.peerCertBinary, conn.peerCertBinary.length)

/-- The request-assembly part of `Fetcher._request`: `putrequest('GET' if
method is None else method, parameters['resource'])`, the automatic
`Content-Type` header when `'body' in options or 'bodyObject' in options`,
the caller headers (absent headers are the caught `KeyError`), and the
`endheaders` body argument (`options['body'].encode()` wins over
`json.dumps(options['bodyObject']).encode()`). -/
def buildRequest (parameters : Parameters) (env : FetchEnv) :
    Except PyError Request :=
  let options := match parameters.options with
    | Option.some o => o
    | Option.none => Options.empty
  match parameters.resource with
  | Option.none => Except.error { kind := "KeyError", msg := "resource" }
  | Option.some resource =>
    Except.ok
      { method := match options.method with
          | Option.none => "GET"
          | Option.some m => m
        target := resource
        contentTypeSet := options.body.isSome || options.bodyObject.isSome
        headers := match options.headers with
          | Option.none => []
          | Option.some hs => hs
        body := match options.body with
          | Option.some b => Option.some b
          | Option.none => match options.bodyObject with
            | Option.some obj => Option.some (env.jsonDumps obj)
            | Option.none => Option.none }

/-- The dict literal `_request` returns beside the raw body. -/
def responseDetails (resp : ResponseData) : PyDict :=
  [("status", PyValue.int resp.status),
   ("statusText", PyValue.str resp.reason),
   ("headers", PyValue.dict (resp.headers.map fun kv => (kv.1, PyValue.str kv.2)))]

/-- `Fetcher._request`: assemble and send the request, read the response.
No exception raised here is caught anywhere in `fetch`. -/
def _request (conn : ConnOk) (parameters : Parameters) (env : FetchEnv) :
    Except PyError (String × PyDict) :=
  match buildRequest parameters env with
  | Except.error e => Except.error e
  | Except.ok req =>
    match conn.respond req with
    | Except.error e => Except.error e
    | Except.ok response => Except.ok (response.body, responseDetails response)

/-- `details['status'] >= 400` needs a dict lookup that raises `KeyError`
on a missing key and an integer on the other side of `>=`; both error cases
are dead by construction of `responseDetails`. -/
def pyDictGetInt (d : PyDict) (k : String) : Except PyError Int :=
  match PyDict.get? d k with
  | Option.some (PyValue.int n) => Except.ok n
  | Option.some _ =>
    Except.error { kind := "TypeError", msg := "not supported between instances" }
  | Option.none => Except.error { kind := "KeyError", msg := k }

/-- `Fetcher._parse_JSON`.  The `raw is None` arm is unreachable from
`fetch` (the raw body is always a decoded string), so the embedding takes a
`String`; an empty body is returned as-is with no error — note this returns
the empty *string*, not `None`. -/
def _parse_JSON (raw : String) (env : FetchEnv) : PyValue × Option PyDict :=
  if raw.length = 0 then (PyValue.str raw, Option.none)
  else
    match env.jsonLoads raw with
    | Except.ok v => (v, Option.none)
    | Except.error e =>
      (PyValue.none,
        Option.some [("statusText", PyValue.str "JSONDecodeError"),
          ("headers", PyValue.dict [("msg", PyValue.str e.msg),
            ("lineno", PyValue.int e.lineno), ("colno", PyValue.int e.colno)])])

/-- The certificate-extraction loop of `openssl_thumbprint` over
`stdout.splitlines(True)`: the accumulator becomes a list at a
`--…BEGIN CERTIFICATE` line, collects every line while it is a list, and
the loop breaks after an `--…END CERTIFICATE` line. -/
def pemExtract : List (List Char) → Option (List (List Char)) →
    Option (List (List Char))
  | [], acc => acc
  | line :: rest, acc =>
    let acc := if listStartsWith line ("--".toList) &&
        containsSub line ("BEGIN CERTIFICATE".toList) then
      Option.some [] else acc
    let acc := match acc with
      | Option.some ls => Option.some (ls ++ [line])
      | Option.none => Option.none
    if listStartsWith line ("--".toList) &&
        containsSub line ("END CERTIFICATE".toList) then acc
    else pemExtract rest acc

/-- `Fetcher.openssl_thumbprint`: run `openssl s_client`, extract the PEM
block from its stdout, pipe it into `openssl x509`.  When no certificate
line occurs in the output the accumulator is still `None` and the
`len(s_clientCertificatePEM)` in the log call raises `TypeError`.  The
subprocess arguments (server name and connect address) feed only the spawned
command line, which the oracle models per call, so the outcome does not
depend on them. -/
def openssl_thumbprint (_serverName _connectAddress : String) (env : FetchEnv) :
    Except PyError Unit :=
  match env.s_clientRun with
  | Except.error e => Except.error e
  | Except.ok s_clientRun =>
    match pemExtract (splitlinesKeepends s_clientRun.stdout.toList []) Option.none with
    | Option.none =>
      Except.error { kind := "TypeError", msg := "object of type NoneType has no len()" }
    | Option.some lines =>
      match env.x509Run (String.mk lines.flatten) with
      | Except.error e => Except.error e
      | Except.ok _ => Except.ok ()

/-- `f'{url.hostname}:{port}' if url.port is None else url.netloc`. -/
def connectAddress (url : Url) (host : String) (port : Nat) : String :=
  match urlPort url with
  | Option.none => s!"{host}:{port}"
  | Option.some _ => url.netloc

/-- The `AttributeError` raised by the log call directly after
`_parse_resource`: on a parse failure the source holds `url = None`, and the
f-string `f'fetch() {url.hostname} {port}.'` dereferences `None.hostname`.
(Python's message reads `'NoneType' object has no attribute 'hostname'`;
the embedding elides the quotes.) -/
def attributeErrorNoneHostname : PyError :=
  { kind := "AttributeError", msg := "NoneType object has no attribute hostname" }

/-- `Fetcher.fetch`, the orchestrator.  `Except.error` means a Python
exception escaped `fetch` to its caller (nothing in the source catches
around the log line after `_parse_resource`, around `_request`, the
`details['status']` comparison or `openssl_thumbprint`).  Logging is
modelled as pure except where evaluating a log argument itself raises: on a
parse-target failure `_parse_resource` returns `url = None`, so the log
f-string raises `attributeErrorNoneHostname` and the
`return_(0, None, fetchError)` on the next source line is dead code — the
parse-failure envelope is never returned. -/
def fetch (parameters : Parameters) (env : FetchEnv) :
    Except PyError FetchResult :=
  match _parse_resource parameters with
  | Except.error _fetchError =>
    Except.error attributeErrorNoneHostname
  | Except.ok (url, host, port) =>
    match _connect host port env with
    | Except.error fetchError =>
      Except.ok (return_ Option.none Option.none Option.none
        (Option.some 1) PyValue.none fetchError)
    | Except.ok conn =>
      let pc := get_peer_certificate conn
      match _request conn parameters env with
      | Except.error e => Except.error e
      | Except.ok (fetchedRaw, details) =>
        match pyDictGetInt details "status" with
        | Except.error e => Except.error e
        | Except.ok status =>
          if 400 ≤ status then
            Except.ok (return_ (Option.some pc.1) (Option.some pc.2)
              (Option.some fetchedRaw) Option.none PyValue.none details)
          else
            match _parse_JSON fetchedRaw env with
            | (_, Option.some fetchError) =>
              Except.ok (return_ (Option.some pc.1) (Option.some pc.2)
                (Option.some fetchedRaw) (Option.some 2) PyValue.none fetchError)
            | (fetchedObject, Option.none) =>
              match openssl_thumbprint host (connectAddress url host port) env with
              | Except.error e => Except.error e
              | Except.ok _ =>
                Except.ok (return_ (Option.some pc.1) (Option.some pc.2)
                  (Option.some fetchedRaw) Option.none fetchedObject details)

/-! ### Trust-bundle acquisition (`Fetcher.keychain_PEM`) -/

/-- The two keychain paths of `Fetcher._keychains` (`_rootPath` resolved to
the filesystem root). -/
def _keychains : List (List String) :=
  [["/", "System", "Library", "Keychains", "SystemRootCertificates.keychain"],
   ["/", "Library", "Keychains", "System.keychain"]]

/-- The `security export` collaborator: one completed process per keychain
path.  `subprocess.run` is called without `check=True`, so a non-zero exit
status does not raise. -/
structure TrustEnv where
  security : List String → SubprocessResult

/-- The certificate-counting readline loop over the concatenated PEM file:
lines that start with `--` and contain `BEGIN CERTIFICATE`. -/
def countCertificates (pem : String) : Nat :=
  ((splitlinesKeepends pem.toList []).filter fun line =>
    listStartsWith line ("--".toList) &&
      containsSub line ("BEGIN CERTIFICATE".toList)).length

/-- `Fetcher.keychain_PEM`: append each keychain's exported stdout to the
temporary PEM file, count the certificates (printed, not checked), return
the path.  The embedding returns the accumulated PEM text and the count;
the `Except` layer records that no code path here raises. -/
def keychain_PEM (env : TrustEnv) : Except PyError (String × Nat) :=
  let pem := String.join (_keychains.map fun k => (env.security k).stdout)
  Except.ok (pem, countCertificates pem)


/-! ### Helper lemmas -/

set_option maxRecDepth 10000

theorem return_peerCertificateDER (p : Option String) (l : Option Nat)
    (r : Option String) (s : Option Int) (f : PyValue) (d : PyDict) :
    (return_ p l r s f d).peerCertificateDER = p := by
  cases hf : f.isNone <;> simp [return_, hf]

theorem return_peerCertificateLength (p : Option String) (l : Option Nat)
    (r : Option String) (s : Option Int) (f : PyValue) (d : PyDict) :
    (return_ p l r s f d).peerCertificateLength = l := by
  cases hf : f.isNone <;> simp [return_, hf]

theorem return_fetchedRaw (p : Option String) (l : Option Nat)
    (r : Option String) (s : Option Int) (f : PyValue) (d : PyDict) :
    (return_ p l r s f d).fetchedRaw = r := by
  cases hf : f.isNone <;> simp [return_, hf]

/-- When `_request` succeeds, its details dict always carries the integer
response status, so `details['status'] >= 400` cannot raise. -/
theorem _request_ok_status (conn : ConnOk) (params : Parameters) (env : FetchEnv)
    (raw : String) (details : PyDict)
    (h : _request conn params env = Except.ok (raw, details)) :
    ∃ s : Int, pyDictGetInt details "status" = Except.ok s := by
  unfold _request at h
  cases hbr : buildRequest params env with
  | error e => simp [hbr] at h
  | ok req =>
    simp only [hbr] at h
    cases hresp : conn.respond req with
    | error e => simp [hresp] at h
    | ok resp =>
      simp only [hresp, Except.ok.injEq, Prod.mk.injEq] at h
      exact ⟨resp.status, by
        simp [← h.2, pyDictGetInt, responseDetails, PyDict.get?]⟩

/-! ### Shared concrete fixtures for witnesses and counterexamples -/

/-- A well-behaved connection: a three-byte peer certificate and a 200
response with a JSON object body. -/
def connOkW : ConnOk :=
  { peerCertBinary := [1, 2, 3],
    peerCertDict := [("subject", "example.test")],
    respond := fun _ => Except.ok
      { status := 200, reason := "OK", headers := [("Server", "t")], body := "{}" } }

/-- `openssl s_client` output that does contain a certificate block. -/
def pemOut : String :=
  "-----BEGIN CERTIFICATE-----\nAQID\n-----END CERTIFICATE-----\n"

/-- A fully well-behaved environment. -/
def envW : FetchEnv :=
  { connectOutcome := ConnectOutcome.ok connOkW,
    jsonLoads := fun _ => Except.ok (PyValue.dict []),
    jsonDumps := fun _ => "{}",
    s_clientRun := Except.ok { returncode := 0, stdout := pemOut, stderr := "" },
    x509Run := fun _ => Except.ok
      { returncode := 0, stdout := "SHA1 Fingerprint=AA", stderr := "" } }

def paramsW : Parameters :=
  { resource := Option.some "https://example.test/get", options := Option.none }

def urlW : Url := { scheme := "https", netloc := "example.test", rest := "/get" }

/-- The request `_request` assembles from `paramsW` with no options. -/
def reqW : Request :=
  { method := "GET", target := "https://example.test/get",
    contentTypeSet := false, headers := [], body := Option.none }

/-- Parameters whose resource string is empty (so it has no host). -/
def paramsC5 : Parameters :=
  { resource := Option.some "", options := Option.none }

/-! ### C5 (code bug) -/

/-- Claim C5 settles against the code as a bug: for every parameters value
whose resource string is missing, empty, or has no resolvable host,
`_parse_resource` does produce the intended failure dictionary and no
connection is attempted, but the envelope return the source clearly intends
(`return_(0, None, fetchError)`, guarded by `if fetchError is not None`) is
unreachable: the log f-string on the line before it dereferences
`url.hostname` with `url = None` and raises `AttributeError`, which escapes
`fetch`.  The theorem evaluates the code at the claimed inputs: `fetch`
raises instead of returning the claimed null-certificate failure envelope,
and the connect oracle is still never consulted. -/
theorem fetch_parse_target_raises (params : Parameters) (env : FetchEnv)
    (hbad : params.resource = Option.none ∨
      ∃ res, params.resource = Option.some res ∧
        urlHostname (urlparse res) = Option.none) :
    fetch params env = Except.error attributeErrorNoneHostname ∧
    ∀ c, fetch params { env with connectOutcome := c } = fetch params env := by
  obtain ⟨e, he⟩ : ∃ e, _parse_resource params = Except.error e := by
    rcases hbad with h | ⟨res, h1, h2⟩
    · exact ⟨[("statusText", PyValue.str "No \"resource\" in parameters."),
        ("parameterKeys", PyValue.list (params.keys.map PyValue.str))],
        by simp [_parse_resource, h]⟩
    · exact ⟨[("statusText", PyValue.str "No host in parameters.resource"),
        ("resource", PyValue.str res), ("url", PyValue.str (urlRepr (urlparse res)))],
        by simp [_parse_resource, h1, h2]⟩
  exact ⟨by simp [fetch, he], fun c => by simp [fetch, he]⟩

/-- Witness for C5 at the concrete empty resource string: the
`AttributeError` escapes, no envelope is returned. -/
theorem fetch_parse_target_raises_witness :
    fetch paramsC5 envW = Except.error attributeErrorNoneHostname :=
  (fetch_parse_target_raises paramsC5 envW (Or.inr ⟨"", rfl, by rfl⟩)).1

/-! ### C6 -/

/-- Claim C6: for every non-empty response body with status < 400 that is
not valid structured data, the fetch result is the failure shape whose
`fetchError` carries the JSON parser's message, line and column (plus the
stage status 2), and no exception escapes the interpreter boundary: `fetch`
returns the envelope normally. -/
theorem fetch_json_parse_failure
    (params : Parameters) (env : FetchEnv) (url : Url) (host : String) (port : Nat)
    (conn : ConnOk) (req : Request) (resp : ResponseData) (e : JSONDecodeError)
    (hparse : _parse_resource params = Except.ok (url, host, port))
    (hconn : env.connectOutcome = ConnectOutcome.ok conn)
    (hbr : buildRequest params env = Except.ok req)
    (hresp : conn.respond req = Except.ok resp)
    (hstatus : resp.status < 400)
    (hbody : resp.body.length ≠ 0)
    (hjson : env.jsonLoads resp.body = Except.error e) :
    fetch params env = Except.ok
      { peerCertificateDER := Option.some (base64encode conn.peerCertBinary),
        peerCertificateLength := Option.some conn.peerCertBinary.length,
        fetchedRaw := Option.some resp.body,
        fetchError := Option.some [("statusText", PyValue.str "JSONDecodeError"),
          ("headers", PyValue.dict [("msg", PyValue.str e.msg),
            ("lineno", PyValue.int e.lineno), ("colno", PyValue.int e.colno)]),
          ("status", PyValue.int 2)],
        fetched := Option.none,
        fetchedDetails := Option.none } := by
  have hnot : ¬ (400 : Int) ≤ resp.status := not_le.mpr hstatus
  simp [fetch, _connect, _request, _parse_JSON, hparse, hconn, hbr, hresp, hjson,
    pyDictGetInt, responseDetails, PyDict.get?, hnot, hbody, get_peer_certificate,
    return_, PyValue.isNone, PyDict.set]

/-- The concrete 200 response with a malformed JSON body. -/
def respC6 : ResponseData :=
  { status := 200, reason := "OK", headers := [], body := "not json" }

/-- A connection answering with `respC6`. -/
def connC6 : ConnOk :=
  { connOkW with respond := fun _ => Except.ok respC6 }

/-- The concrete JSON decode error. -/
def jerrC6 : JSONDecodeError := { msg := "Expecting value", lineno := 1, colno := 1 }

/-- An environment whose JSON parser rejects every input at line 1,
column 1. -/
def envC6 : FetchEnv :=
  { envW with
    connectOutcome := ConnectOutcome.ok connC6,
    jsonLoads := fun _ => Except.error jerrC6 }

/-- Witness for C6 at a concrete malformed body. -/
theorem fetch_json_parse_failure_witness :
    fetch paramsW envC6 = Except.ok
      { peerCertificateDER := Option.some "AQID",
        peerCertificateLength := Option.some 3,
        fetchedRaw := Option.some "not json",
        fetchError := Option.some [("statusText", PyValue.str "JSONDecodeError"),
          ("headers", PyValue.dict [("msg", PyValue.str "Expecting value"),
            ("lineno", PyValue.int 1), ("colno", PyValue.int 1)]),
          ("status", PyValue.int 2)],
        fetched := Option.none,
        fetchedDetails := Option.none } :=
  fetch_json_parse_failure paramsW envC6 urlW "example.test" 443 connC6 reqW
    respC6 jerrC6
    (by rfl) (by rfl) (by rfl) (by rfl) (by decide) (by decide) (by rfl)

/-! ### C4 -/

/-- Claim C4: for every response with status >= 400, the result is the
failure shape, `fetchedRaw` equals exactly the body read from the response,
and the body is never parsed as structured data (the result is unchanged
under every behaviour of the JSON parser). -/
theorem fetch_status_ge_400_failure
    (params : Parameters) (env : FetchEnv) (url : Url) (host : String) (port : Nat)
    (conn : ConnOk) (req : Request) (resp : ResponseData)
    (hparse : _parse_resource params = Except.ok (url, host, port))
    (hconn : env.connectOutcome = ConnectOutcome.ok conn)
    (hbr : buildRequest params env = Except.ok req)
    (hresp : conn.respond req = Except.ok resp)
    (hstatus : 400 ≤ resp.status) :
    fetch params env = Except.ok
      { peerCertificateDER := Option.some (base64encode conn.peerCertBinary),
        peerCertificateLength := Option.some conn.peerCertBinary.length,
        fetchedRaw := Option.some resp.body,
        fetchError := Option.some (responseDetails resp),
        fetched := Option.none,
        fetchedDetails := Option.none } ∧
    ∀ g, fetch params { env with jsonLoads := g } = fetch params env := by
  have hmain : ∀ env' : FetchEnv, env'.connectOutcome = ConnectOutcome.ok conn →
      buildRequest params env' = Except.ok req →
      fetch params env' = Except.ok
        { peerCertificateDER := Option.some (base64encode conn.peerCertBinary),
          peerCertificateLength := Option.some conn.peerCertBinary.length,
          fetchedRaw := Option.some resp.body,
          fetchError := Option.some (responseDetails resp),
          fetched := Option.none,
          fetchedDetails := Option.none } := by
    intro env' hconn' hbr'
    simp [fetch, _connect, _request, hparse, hconn', hbr', hresp,
      pyDictGetInt, responseDetails, PyDict.get?, hstatus, get_peer_certificate,
      return_, PyValue.isNone]
  refine ⟨hmain env hconn hbr, fun g => ?_⟩
  rw [hmain env hconn hbr, hmain { env with jsonLoads := g } hconn hbr]

/-- The concrete 404 response. -/
def respC4 : ResponseData :=
  { status := 404, reason := "NOT FOUND", headers := [], body := "gone" }

def connC4 : ConnOk := { connOkW with respond := fun _ => Except.ok respC4 }

def envC4 : FetchEnv := { envW with connectOutcome := ConnectOutcome.ok connC4 }

/-- Witness for C4 at a concrete 404 response. -/
theorem fetch_status_ge_400_failure_witness :
    fetch paramsW envC4 = Except.ok
      { peerCertificateDER := Option.some "AQID",
        peerCertificateLength := Option.some 3,
        fetchedRaw := Option.some "gone",
        fetchError := Option.some [("status", PyValue.int 404),
          ("statusText", PyValue.str "NOT FOUND"), ("headers", PyValue.dict [])],
        fetched := Option.none,
        fetchedDetails := Option.none } ∧
    fetch paramsW { envC4 with jsonLoads := fun _ => Except.ok PyValue.none } =
      fetch paramsW envC4 :=
  And.intro
    (fetch_status_ge_400_failure paramsW envC4 urlW "example.test" 443 connC4
      reqW respC4 (by rfl) (by rfl) (by rfl) (by rfl) (by decide)).1
    ((fetch_status_ge_400_failure paramsW envC4 urlW "example.test" 443 connC4
      reqW respC4 (by rfl) (by rfl) (by rfl) (by rfl) (by decide)).2
      (fun _ => Except.ok PyValue.none))

/-! ### C7 (corrected) -/

/-- The concrete 200 response with an empty body. -/
def respC7 : ResponseData :=
  { status := 200, reason := "OK", headers := [], body := "" }

def connC7 : ConnOk := { connOkW with respond := fun _ => Except.ok respC7 }

def envC7 : FetchEnv := { envW with connectOutcome := ConnectOutcome.ok connC7 }

/-- Claim C7 counterexample: with status 200 and an empty response body the
result is the success shape, but `fetched` is the empty string that
`_parse_JSON` passes back unchanged, not null (`None`); the claim asserts it
would be null. -/
theorem fetch_empty_body_not_null :
    fetch paramsW envC7 = Except.ok
      { peerCertificateDER := Option.some "AQID",
        peerCertificateLength := Option.some 3,
        fetchedRaw := Option.some "",
        fetchError := Option.none,
        fetched := Option.some (PyValue.str ""),
        fetchedDetails := Option.some [("status", PyValue.int 200),
          ("statusText", PyValue.str "OK"), ("headers", PyValue.dict [])] } ∧
    Option.some (PyValue.str "") ≠ Option.some PyValue.none :=
  ⟨by rfl, by simp⟩

/-- Claim C7 as amended: for every response with status < 400 whose body is
empty, the fetch result is the success shape with `fetched` equal to the
empty string (the raw empty body passed back without parsing) and no parse
error. -/
theorem fetch_empty_body_empty_string
    (params : Parameters) (env : FetchEnv) (url : Url) (host : String) (port : Nat)
    (conn : ConnOk) (req : Request) (resp : ResponseData)
    (hparse : _parse_resource params = Except.ok (url, host, port))
    (hconn : env.connectOutcome = ConnectOutcome.ok conn)
    (hbr : buildRequest params env = Except.ok req)
    (hresp : conn.respond req = Except.ok resp)
    (hstatus : resp.status < 400)
    (hbody : resp.body = "")
    (hthumb : openssl_thumbprint host (connectAddress url host port) env =
      Except.ok ()) :
    fetch params env = Except.ok
      { peerCertificateDER := Option.some (base64encode conn.peerCertBinary),
        peerCertificateLength := Option.some conn.peerCertBinary.length,
        fetchedRaw := Option.some resp.body,
        fetchError := Option.none,
        fetched := Option.some (PyValue.str resp.body),
        fetchedDetails := Option.some (responseDetails resp) } := by
  have hnot : ¬ (400 : Int) ≤ resp.status := not_le.mpr hstatus
  simp [fetch, _connect, _request, _parse_JSON, hparse, hconn, hbr, hresp,
    pyDictGetInt, responseDetails, PyDict.get?, hnot, hbody, hthumb,
    get_peer_certificate, return_, PyValue.isNone]

/-- Witness for the amended C7 at the concrete empty-body response. -/
theorem fetch_empty_body_empty_string_witness :
    fetch paramsW envC7 = Except.ok
      { peerCertificateDER := Option.some (base64encode connC7.peerCertBinary),
        peerCertificateLength := Option.some connC7.peerCertBinary.length,
        fetchedRaw := Option.some respC7.body,
        fetchError := Option.none,
        fetched := Option.some (PyValue.str respC7.body),
        fetchedDetails := Option.some (responseDetails respC7) } :=
  fetch_empty_body_empty_string paramsW envC7 urlW "example.test" 443 connC7
    reqW respC7 (by rfl) (by rfl) (by rfl) (by rfl) (by decide) (by rfl) (by rfl)

/-! ### C10 -/

/-- Claim C10: for every response with status < 400 whose body parses to the
JSON null value, the fetch call returns the failure shape — the response
details become `fetchError` and no `fetched` / `fetchedDetails` fields are
present — because `return_` classifies success against `fetched is None`. -/
theorem fetch_null_body_failure_shape
    (params : Parameters) (env : FetchEnv) (url : Url) (host : String) (port : Nat)
    (conn : ConnOk) (req : Request) (resp : ResponseData)
    (hparse : _parse_resource params = Except.ok (url, host, port))
    (hconn : env.connectOutcome = ConnectOutcome.ok conn)
    (hbr : buildRequest params env = Except.ok req)
    (hresp : conn.respond req = Except.ok resp)
    (hstatus : resp.status < 400)
    (hbody : resp.body.length ≠ 0)
    (hjson : env.jsonLoads resp.body = Except.ok PyValue.none)
    (hthumb : openssl_thumbprint host (connectAddress url host port) env =
      Except.ok ()) :
    fetch params env = Except.ok
      { peerCertificateDER := Option.some (base64encode conn.peerCertBinary),
        peerCertificateLength := Option.some conn.peerCertBinary.length,
        fetchedRaw := Option.some resp.body,
        fetchError := Option.some (responseDetails resp),
        fetched := Option.none,
        fetchedDetails := Option.none } := by
  have hnot : ¬ (400 : Int) ≤ resp.status := not_le.mpr hstatus
  simp [fetch, _connect, _request, _parse_JSON, hparse, hconn, hbr, hresp,
    pyDictGetInt, responseDetails, PyDict.get?, hnot, hbody, hjson, hthumb,
    get_peer_certificate, return_, PyValue.isNone]

/-- The concrete 200 response whose body is the JSON text `null`. -/
def respC10 : ResponseData :=
  { status := 200, reason := "OK", headers := [], body := "null" }

def connC10 : ConnOk := { connOkW with respond := fun _ => Except.ok respC10 }

def envC10 : FetchEnv :=
  { envW with
    connectOutcome := ConnectOutcome.ok connC10,
    jsonLoads := fun _ => Except.ok PyValue.none }

/-- Witness for C10 at the concrete body `null`. -/
theorem fetch_null_body_failure_shape_witness :
    fetch paramsW envC10 = Except.ok
      { peerCertificateDER := Option.some "AQID",
        peerCertificateLength := Option.some 3,
        fetchedRaw := Option.some "null",
        fetchError := Option.some [("status", PyValue.int 200),
          ("statusText", PyValue.str "OK"), ("headers", PyValue.dict [])],
        fetched := Option.none,
        fetchedDetails := Option.none } :=
  fetch_null_body_failure_shape paramsW envC10 urlW "example.test" 443 connC10
    reqW respC10 (by rfl) (by rfl) (by rfl) (by rfl) (by decide) (by decide)
    (by rfl) (by rfl)

/-! ### C1 -/

/-- Once parse and connect have succeeded, any envelope `fetch` returns
carries exactly the connection's certificate data, whatever happens later. -/
theorem fetch_connected_certificates
    (params : Parameters) (env : FetchEnv) (url : Url) (host : String) (port : Nat)
    (conn : ConnOk) (r : FetchResult)
    (hp : _parse_resource params = Except.ok (url, host, port))
    (hc : env.connectOutcome = ConnectOutcome.ok conn)
    (hfetch : fetch params env = Except.ok r) :
    r.peerCertificateDER = Option.some (base64encode conn.peerCertBinary) ∧
    r.peerCertificateLength = Option.some conn.peerCertBinary.length := by
  unfold fetch at hfetch
  simp only [hp, _connect, hc] at hfetch
  cases hreq : _request conn params env with
  | error e => rw [hreq] at hfetch; cases hfetch
  | ok pr =>
    obtain ⟨raw, details⟩ := pr
    obtain ⟨s, hs⟩ := _request_ok_status conn params env raw details hreq
    simp only [hreq, hs, get_peer_certificate] at hfetch
    split at hfetch
    · injection hfetch with h
      subst h
      exact ⟨return_peerCertificateDER _ _ _ _ _ _,
        return_peerCertificateLength _ _ _ _ _ _⟩
    · rcases hpj : _parse_JSON raw env with ⟨obj, err⟩
      rw [hpj] at hfetch
      cases err with
      | some fe =>
        injection hfetch with h
        subst h
        exact ⟨return_peerCertificateDER _ _ _ _ _ _,
          return_peerCertificateLength _ _ _ _ _ _⟩
      | none =>
        cases ht : openssl_thumbprint host (connectAddress url host port) env with
        | error e => rw [ht] at hfetch; cases hfetch
        | ok u =>
          rw [ht] at hfetch
          injection hfetch with h
          subst h
          exact ⟨return_peerCertificateDER _ _ _ _ _ _,
            return_peerCertificateLength _ _ _ _ _ _⟩

/-- Claim C1: whenever the connect step has been reached and succeeded, the
envelope `fetch` returns has non-null `peerCertificateDER` and
`peerCertificateLength` — in the success shape and in every later-stage
failure shape — and the fields are null only when no connection was
established: connect construction/handshake failure envelopes carry null,
and a returned envelope with a null certificate field implies the connect
step did not succeed.  (A parse-target failure returns no envelope at all —
the log line raises first — so for every returned envelope the connect
oracle's outcome decides the fields.) -/
theorem fetch_certificate_fields (params : Parameters) (env : FetchEnv)
    (r : FetchResult) (hfetch : fetch params env = Except.ok r) :
    ((∃ conn, env.connectOutcome = ConnectOutcome.ok conn) →
      r.peerCertificateDER.isSome = true ∧
        r.peerCertificateLength.isSome = true) ∧
    (∀ m, (env.connectOutcome = ConnectOutcome.ctorError m ∨
           env.connectOutcome = ConnectOutcome.handshakeError m) →
      r.peerCertificateDER = Option.none ∧
        r.peerCertificateLength = Option.none) ∧
    (r.peerCertificateDER = Option.none ∨
        r.peerCertificateLength = Option.none →
      ∀ conn, env.connectOutcome ≠ ConnectOutcome.ok conn) := by
  have hparse : ∀ {conn : ConnOk}, env.connectOutcome = ConnectOutcome.ok conn →
      ∃ url host port, _parse_resource params = Except.ok (url, host, port) := by
    intro conn _
    cases hp : _parse_resource params with
    | error e =>
      rw [show fetch params env = Except.error attributeErrorNoneHostname by
        simp [fetch, hp]] at hfetch
      cases hfetch
    | ok tgt =>
      obtain ⟨url, host, port⟩ := tgt
      exact ⟨url, host, port, rfl⟩
  refine ⟨?_, ?_, ?_⟩
  · rintro ⟨conn, hconn⟩
    obtain ⟨url, host, port, hp⟩ := hparse hconn
    obtain ⟨hder, hlen⟩ :=
      fetch_connected_certificates params env url host port conn r hp hconn hfetch
    exact ⟨by rw [hder]; rfl, by rw [hlen]; rfl⟩
  · intro m hm
    cases hp : _parse_resource params with
    | error e =>
      rw [show fetch params env = Except.error attributeErrorNoneHostname by
        simp [fetch, hp]] at hfetch
      cases hfetch
    | ok tgt =>
      obtain ⟨url, host, port⟩ := tgt
      unfold fetch at hfetch
      simp only [hp] at hfetch
      rcases hm with hm | hm <;> simp only [_connect, hm] at hfetch <;>
        injection hfetch with h <;> subst h <;>
        exact ⟨return_peerCertificateDER _ _ _ _ _ _,
          return_peerCertificateLength _ _ _ _ _ _⟩
  · intro hnull conn hconn
    obtain ⟨url, host, port, hp⟩ := hparse hconn
    obtain ⟨hder, hlen⟩ :=
      fetch_connected_certificates params env url host port conn r hp hconn hfetch
    rcases hnull with h | h
    · rw [hder] at h; exact Option.noConfusion h
    · rw [hlen] at h; exact Option.noConfusion h

/-- The envelope `fetch` produces for `paramsW` in `envW`. -/
def resultW : FetchResult :=
  { peerCertificateDER := Option.some "AQID",
    peerCertificateLength := Option.some 3,
    fetchedRaw := Option.some "{}",
    fetchError := Option.none,
    fetched := Option.some (PyValue.dict []),
    fetchedDetails := Option.some [("status", PyValue.int 200),
      ("statusText", PyValue.str "OK"),
      ("headers", PyValue.dict [("Server", PyValue.str "t")])] }

/-- Witness for C1 at a concrete successful fetch. -/
theorem fetch_certificate_fields_witness :
    resultW.peerCertificateDER.isSome = true ∧
    resultW.peerCertificateLength.isSome = true :=
  (fetch_certificate_fields paramsW envW resultW (by rfl)).1
    ⟨connOkW, by rfl⟩

/-! ### C2 (corrected) -/

/-- The transport-stage exception of the counterexample. -/
def errC2 : PyError := { kind := "ConnectionResetError", msg := "connection reset" }

/-- A connection on which the request/response interaction raises. -/
def connC2 : ConnOk := { connOkW with respond := fun _ => Except.error errC2 }

def envC2 : FetchEnv := { envW with connectOutcome := ConnectOutcome.ok connC2 }

/-- Claim C2 counterexample: a transport-stage exception is not reported
inside the result envelope — nothing in `fetch` catches around `_request`,
so the exception escapes the fetch boundary to the caller. -/
theorem fetch_transport_exception_escapes :
    fetch paramsW envC2 = Except.error errC2 := by rfl

/-- Claim C2 as amended: failures of the connect and body-parse stages are
reported inside the returned envelope (`fetch` returns normally); but a
parse-target failure raises `AttributeError` from the log line before the
envelope return can run, and an exception raised during the
request/response stage, or by the openssl cross-check, likewise propagates
past the fetch boundary to the caller. -/
theorem fetch_error_isolation_amended (params : Parameters) (env : FetchEnv) :
    (∀ e, _parse_resource params = Except.error e →
      fetch params env = Except.error attributeErrorNoneHostname) ∧
    (∀ url host port m,
      _parse_resource params = Except.ok (url, host, port) →
      (env.connectOutcome = ConnectOutcome.ctorError m ∨
       env.connectOutcome = ConnectOutcome.handshakeError m) →
      (fetch params env).isOk = true) ∧
    (∀ url host port conn e,
      _parse_resource params = Except.ok (url, host, port) →
      env.connectOutcome = ConnectOutcome.ok conn →
      _request conn params env = Except.error e →
      fetch params env = Except.error e) ∧
    (∀ url host port conn req resp err,
      _parse_resource params = Except.ok (url, host, port) →
      env.connectOutcome = ConnectOutcome.ok conn →
      buildRequest params env = Except.ok req →
      conn.respond req = Except.ok resp →
      resp.status < 400 → resp.body.length ≠ 0 →
      env.jsonLoads resp.body = Except.error err →
      (fetch params env).isOk = true) ∧
    (∀ url host port conn req resp v e,
      _parse_resource params = Except.ok (url, host, port) →
      env.connectOutcome = ConnectOutcome.ok conn →
      buildRequest params env = Except.ok req →
      conn.respond req = Except.ok resp →
      resp.status < 400 →
      _parse_JSON resp.body env = (v, Option.none) →
      openssl_thumbprint host (connectAddress url host port) env =
        Except.error e →
      fetch params env = Except.error e) := by
  refine ⟨?_, ?_, ?_, ?_, ?_⟩
  · intro e he
    simp [fetch, he]
  · intro url host port m hp hm
    rcases hm with hm | hm <;>
      simp [fetch, hp, _connect, hm, Except.isOk, Except.toBool]
  · intro url host port conn e hp hc hreq
    unfold fetch
    simp only [hp, _connect, hc, hreq]
  · intro url host port conn req resp err hp hc hbr hresp hstatus hbody hjson
    have hnot : ¬ (400 : Int) ≤ resp.status := not_le.mpr hstatus
    simp [fetch, _connect, _request, _parse_JSON, hp, hc, hbr, hresp, hjson,
      pyDictGetInt, responseDetails, PyDict.get?, hnot, hbody, Except.isOk, Except.toBool]
  · intro url host port conn req resp v e hp hc hbr hresp hstatus hpj hthumb
    have hnot : ¬ (400 : Int) ≤ resp.status := not_le.mpr hstatus
    simp [fetch, _connect, _request, hp, hc, hbr, hresp, hpj,
      pyDictGetInt, responseDetails, PyDict.get?, hnot, hthumb]

/-- A connect-stage construction failure. -/
def envC2b : FetchEnv :=
  { envW with connectOutcome := ConnectOutcome.ctorError "refused" }

/-- Witness for the amended C2: a connect-stage failure is isolated into
the envelope, while a transport-stage exception escapes. -/
theorem fetch_error_isolation_amended_witness :
    (fetch paramsW envC2b).isOk = true ∧
    fetch paramsW envC2 = Except.error errC2 :=
  ⟨(fetch_error_isolation_amended paramsW envC2b).2.1 urlW "example.test" 443
     "refused" (by rfl) (Or.inl (by rfl)),
   (fetch_error_isolation_amended paramsW envC2).2.2.1 urlW "example.test" 443
     connC2 errC2 (by rfl) (by rfl) (by rfl)⟩

/-! ### C8 (corrected) -/

/-- `openssl s_client` output with no certificate block (for instance when
its connection failed). -/
def badSClient : SubprocessResult :=
  { returncode := 1, stdout := "connect error\n", stderr := "connect failed" }

def envC8 : FetchEnv := { envW with s_clientRun := Except.ok badSClient }

/-- The `len(None)` failure of the cross-check. -/
def typeErrC8 : PyError :=
  { kind := "TypeError", msg := "object of type NoneType has no len()" }

/-- Claim C8 counterexample: on an otherwise fully successful fetch, an
`openssl s_client` output with no certificate block makes the cross-check
raise `TypeError` (from `len(None)`), and that exception propagates out of
`fetch` instead of leaving the result unchanged. -/
theorem openssl_crosscheck_failure_escapes :
    fetch paramsW envC8 = Except.error typeErrC8 := by rfl

/-- Two environments that agree on everything a fetch call reads except the
openssl oracles, and whose cross-check outcomes agree, produce identical
fetch results. -/
theorem fetch_env_agree (params : Parameters) (env env' : FetchEnv)
    (hco : env'.connectOutcome = env.connectOutcome)
    (hjl : env'.jsonLoads = env.jsonLoads)
    (hjd : env'.jsonDumps = env.jsonDumps)
    (hth : openssl_thumbprint "" "" env' = openssl_thumbprint "" "" env) :
    fetch params env' = fetch params env := by
  have hbr : buildRequest params env' = buildRequest params env := by
    unfold buildRequest; rw [hjd]
  have hrq : ∀ conn, _request conn params env' = _request conn params env := by
    intro conn; unfold _request; rw [hbr]
  have hpjall : ∀ raw, _parse_JSON raw env' = _parse_JSON raw env := by
    intro raw; unfold _parse_JSON; rw [hjl]
  have hcn : ∀ host port, _connect host port env' = _connect host port env := by
    intro host port; unfold _connect; rw [hco]
  have hthm : ∀ a b, openssl_thumbprint a b env' = openssl_thumbprint a b env :=
    fun a b => hth
  unfold fetch
  cases _parse_resource params with
  | error e => rfl
  | ok tgt =>
    obtain ⟨url, host, port⟩ := tgt
    dsimp only
    rw [hcn host port]
    cases _connect host port env with
    | error e => rfl
    | ok conn =>
      dsimp only
      rw [hrq conn]
      cases _request conn params env with
      | error e => rfl
      | ok pr =>
        obtain ⟨raw, details⟩ := pr
        dsimp only
        cases pyDictGetInt details "status" with
        | error e => rfl
        | ok st =>
          dsimp only
          by_cases h4 : (400 : Int) ≤ st
          · simp only [if_pos h4]
          · simp only [if_neg h4]
            rw [hpjall raw]
            cases _parse_JSON raw env with
            | mk obj err =>
              cases err with
              | some fe => rfl
              | none =>
                dsimp only
                rw [hthm host (connectAddress url host port)]

/-- Claim C8 as amended: the cross-check's outcome never changes the fields
of the fetch result — two environments differing only in the openssl
oracles, on both of which the cross-check completes, produce identical
results — but a failure inside the cross-check itself (tool invocation
error, or no certificate in its output) raises past `fetch` instead of
being suppressed. -/
theorem openssl_crosscheck_amended (params : Parameters) (env : FetchEnv) :
    (∀ s1 x1 s2 x2,
      openssl_thumbprint "" "" { env with s_clientRun := s1, x509Run := x1 } =
        Except.ok () →
      openssl_thumbprint "" "" { env with s_clientRun := s2, x509Run := x2 } =
        Except.ok () →
      fetch params { env with s_clientRun := s1, x509Run := x1 } =
        fetch params { env with s_clientRun := s2, x509Run := x2 }) ∧
    (∀ url host port conn req resp v e,
      _parse_resource params = Except.ok (url, host, port) →
      env.connectOutcome = ConnectOutcome.ok conn →
      buildRequest params env = Except.ok req →
      conn.respond req = Except.ok resp →
      resp.status < 400 →
      _parse_JSON resp.body env = (v, Option.none) →
      openssl_thumbprint host (connectAddress url host port) env =
        Except.error e →
      fetch params env = Except.error e) := by
  constructor
  · intro s1 x1 s2 x2 h1 h2
    exact fetch_env_agree params { env with s_clientRun := s2, x509Run := x2 }
      { env with s_clientRun := s1, x509Run := x1 } rfl rfl rfl
      (h1.trans h2.symm)
  · intro url host port conn req resp v e hp hc hbr hresp hstatus hpj hthumb
    have hnot : ¬ (400 : Int) ≤ resp.status := not_le.mpr hstatus
    simp [fetch, _connect, _request, hp, hc, hbr, hresp, hpj,
      pyDictGetInt, responseDetails, PyDict.get?, hnot, hthumb]

/-- A second benign `s_client` output, with a prefix line before the
certificate block. -/
def pemOut2 : String :=
  "depth=0\n-----BEGIN CERTIFICATE-----\nAQID\n-----END CERTIFICATE-----\n"

def sClientA : SubprocessResult := { returncode := 0, stdout := pemOut, stderr := "" }

def sClientB : SubprocessResult := { returncode := 0, stdout := pemOut2, stderr := "x" }

def x509A : SubprocessResult := { returncode := 0, stdout := "FP=AA", stderr := "" }

def x509B : SubprocessResult := { returncode := 1, stdout := "err", stderr := "" }

/-- Witness for the amended C8: swapping benign openssl oracles does not
change the successful result, and the concrete cross-check failure
propagates. -/
theorem openssl_crosscheck_amended_witness :
    fetch paramsW { envW with
      s_clientRun := Except.ok sClientA, x509Run := fun _ => Except.ok x509A } =
    fetch paramsW { envW with
      s_clientRun := Except.ok sClientB, x509Run := fun _ => Except.ok x509B } ∧
    fetch paramsW envC8 = Except.error typeErrC8 :=
  ⟨(openssl_crosscheck_amended paramsW envW).1
      (Except.ok sClientA) (fun _ => Except.ok x509A)
      (Except.ok sClientB) (fun _ => Except.ok x509B)
      (by rfl) (by rfl),
   (openssl_crosscheck_amended paramsW envC8).2 urlW "example.test" 443 connOkW
     reqW { status := 200, reason := "OK", headers := [("Server", "t")], body := "{}" }
     (PyValue.dict []) typeErrC8
     (by rfl) (by rfl) (by rfl) (by rfl) (by decide) (by rfl) (by rfl)⟩

/-! ### C9 -/

/-- Claim C9: for every request whose options contain a `bodyObject` (and,
per the interface contract, no raw `body`), the body handed to the
connection equals the canonical JSON serialization of that object and the
automatic Content-Type header is written; and when no method option is
given the request method is GET. -/
theorem request_bodyObject_serialization
    (params : Parameters) (env : FetchEnv) (opts : Options) (obj : PyValue)
    (res : String)
    (hres : params.resource = Option.some res)
    (hopts : params.options = Option.some opts)
    (hbody : opts.body = Option.none)
    (hobj : opts.bodyObject = Option.some obj) :
    Except.map Request.body (buildRequest params env) =
      Except.ok (Option.some (env.jsonDumps obj)) ∧
    Except.map Request.contentTypeSet (buildRequest params env) =
      Except.ok true ∧
    (opts.method = Option.none →
      Except.map Request.method (buildRequest params env) = Except.ok "GET") := by
  refine ⟨?_, ?_, fun hm => ?_⟩ <;>
    simp [buildRequest, hres, hopts, hbody, hobj, Except.map, *]

/-- The concrete options `{method: "POST", bodyObject: {"x": 1}}` of the
spec scenario, plus the no-method variant. -/
def optsC9 : Options :=
  { method := Option.some "POST", body := Option.none,
    bodyObject := Option.some (PyValue.dict [("x", PyValue.int 1)]),
    headers := Option.none }

def optsC9noMethod : Options := { optsC9 with method := Option.none }

def paramsC9 : Parameters :=
  { resource := Option.some "https://example.test/post", options := Option.some optsC9 }

def paramsC9noMethod : Parameters :=
  { paramsC9 with options := Option.some optsC9noMethod }

/-- Witness for C9 at the spec's scenario options. -/
theorem request_bodyObject_serialization_witness :
    Except.map Request.body (buildRequest paramsC9 envW) =
      Except.ok (Option.some "{}") ∧
    Except.map Request.contentTypeSet (buildRequest paramsC9 envW) =
      Except.ok true ∧
    Except.map Request.method (buildRequest paramsC9noMethod envW) =
      Except.ok "GET" :=
  ⟨(request_bodyObject_serialization paramsC9 envW optsC9
      (PyValue.dict [("x", PyValue.int 1)]) "https://example.test/post"
      (by rfl) (by rfl) (by rfl) (by rfl)).1,
   (request_bodyObject_serialization paramsC9 envW optsC9
      (PyValue.dict [("x", PyValue.int 1)]) "https://example.test/post"
      (by rfl) (by rfl) (by rfl) (by rfl)).2.1,
   (request_bodyObject_serialization paramsC9noMethod envW optsC9noMethod
      (PyValue.dict [("x", PyValue.int 1)]) "https://example.test/post"
      (by rfl) (by rfl) (by rfl) (by rfl)).2.2 (by rfl)⟩

/-! ### C3 (corrected) -/

/-- The export tool failing with empty stdout on every keychain. -/
def trustEnvC3 : TrustEnv :=
  { security := fun _ =>
      { returncode := 1, stdout := "", stderr := "security: error exporting" } }

/-- Claim C3 counterexample: with the export tool failing (exit status 1)
and producing no output on both keychains, acquisition still returns
normally with an empty bundle and zero certificates — no
`TrustAcquisitionError` exists anywhere in the code, the exit status is
never inspected, and nothing is raised. -/
theorem keychain_PEM_accepts_empty_bundle :
    keychain_PEM trustEnvC3 = Except.ok ("", 0) ∧
    (trustEnvC3.security (_keychains.getD 0 [])).returncode ≠ 0 :=
  ⟨by rfl, by decide⟩

/-- Claim C3 as amended: trust-bundle acquisition never fails on its own:
it returns the concatenation of the export tool's stdout for each keychain
together with a certificate count that is only logged, and its result is
entirely insensitive to the tool's exit status and stderr — tool failures
and empty bundles are accepted silently. -/
theorem keychain_PEM_never_fails (env : TrustEnv) :
    (keychain_PEM env).isOk = true ∧
    keychain_PEM env = Except.ok
      (String.join (_keychains.map fun k => (env.security k).stdout),
       countCertificates (String.join (_keychains.map fun k => (env.security k).stdout))) ∧
    (∀ rc err, keychain_PEM
        { security := fun k =>
            { returncode := rc, stdout := (env.security k).stdout, stderr := err } } =
      keychain_PEM env) :=
  ⟨by rfl, by rfl, fun rc err => by rfl⟩

/-- A trust environment whose export tool succeeds with one certificate. -/
def trustEnvOkW : TrustEnv :=
  { security := fun _ =>
      { returncode := 0,
        stdout := "-----BEGIN CERTIFICATE-----\nAQID\n-----END CERTIFICATE-----\n",
        stderr := "" } }

/-- Witness for the amended C3 at a concrete trust environment. -/
theorem keychain_PEM_never_fails_witness :
    (keychain_PEM trustEnvOkW).isOk = true ∧
    keychain_PEM
        { security := fun k =>
            { returncode := 7, stdout := (trustEnvOkW.security k).stdout,
              stderr := "diag" } } =
      keychain_PEM trustEnvOkW :=
  ⟨(keychain_PEM_never_fails trustEnvOkW).1,
   (keychain_PEM_never_fails trustEnvOkW).2.2 7 "diag"⟩
